import Mathlib

/-!
Verification of the BioHIVE report-integrity pipeline.

Shallow embedding, in Lean 4, of the three core services of the
`biohive` backend:

* `backend/services/validation.py` — the intake validator / suspicion
  scorer (`validate_report`, `validate_node_exists`);
* `backend/services/audit.py` — the hash-chain audit trail
  (`AuditTrail.create_hash`, `AuditTrail.verify_report`,
  `AuditTrail.verify_chain`), including a byte-level SHA-256;
* `backend/services/aggregation.py` — the daily aggregation / risk
  scoring engine (`AggregationService.aggregate_date`,
  `_compute_risk_score`, `_compute_risk_level`).

Modelling conventions, used throughout:

* Calendar dates are represented by their proleptic-Gregorian ordinal
  (Python `date.toordinal()`), an `Int`.  `date.weekday()` is then
  `(ordinal - 1) % 7` (ordinal 1, 0001-01-01, is a Monday), and date
  arithmetic (`days_old`, previous day) is ordinal arithmetic.
* The SQLAlchemy store is passed explicitly: a query result becomes a
  function argument (the previous-day report, the duplicate-existence
  flag) or a list of rows ordered as the query orders them.
* Python `float` arithmetic is modelled by exact rationals (`ℚ`).  All
  values reached by the verified properties (spike multipliers at small
  integer operands, risk scores, chain-integrity percentages) are exact
  in IEEE double precision, so the two agree on every property below.
* Display-only payloads (warning `message` / `suggestion` texts, audit
  timestamps, database surrogate ids) are omitted from the embedded
  records; every field a verified property depends on is kept.
-/

namespace BioHive

/-! ## Intake validator (`backend/services/validation.py`) -/

/-- Warning severity levels used by `validate_report`. -/
inductive Severity where
  | LOW
  | MEDIUM
  | HIGH
deriving DecidableEq, Repr

/-- One warning dict appended to the `warnings` list by `validate_report`.
`subject` is the value of the warning's `symptom` (or `field`) key;
`previous_value` is the `previous_value` key, present exactly on the
day-over-day spike warnings.  The free-text `message` / `suggestion`
payloads are omitted (display only). -/
structure Warning where
  severity : Severity
  subject : String
  previous_value : Option Int
deriving DecidableEq, Repr

/-- The `ValidationError` exception: we keep the `field` attribute that
identifies which check raised (messages and echoed values omitted). -/
structure VErr where
  field : String
deriving DecidableEq, Repr

/-- The dict returned by `validate_report` on acceptance. -/
structure VResult where
  valid : Bool
  warnings : List Warning
  errors : List VErr
  suspicion_score : Int
  requires_review : Bool
deriving DecidableEq, Repr

/-- The previous-day `DailyReport` row fields read by the spike check. -/
structure PrevCounts where
  fever_count : Int
  cough_count : Int
  gi_count : Int
deriving DecidableEq, Repr

/-- `=== SUSPICIOUS RANGE DETECTION ===` section: per-symptom three-tier
range warnings (fever/cough at >100/>50/>30, gi at >60/>30/>15). -/
def rangeWarnings (fever cough gi : Int) : List Warning :=
  (if fever > 100 then [⟨Severity.HIGH, "fever", none⟩]
   else if fever > 50 then [⟨Severity.MEDIUM, "fever", none⟩]
   else if fever > 30 then [⟨Severity.LOW, "fever", none⟩]
   else []) ++
  (if cough > 100 then [⟨Severity.HIGH, "cough", none⟩]
   else if cough > 50 then [⟨Severity.MEDIUM, "cough", none⟩]
   else if cough > 30 then [⟨Severity.LOW, "cough", none⟩]
   else []) ++
  (if gi > 60 then [⟨Severity.HIGH, "gi", none⟩]
   else if gi > 30 then [⟨Severity.MEDIUM, "gi", none⟩]
   else if gi > 15 then [⟨Severity.LOW, "gi", none⟩]
   else [])

/-- `=== DATE VALIDATION ===` staleness warnings (>60/>30/>7 days old). -/
def staleWarnings (days_old : Int) : List Warning :=
  if days_old > 60 then [⟨Severity.HIGH, "date", none⟩]
  else if days_old > 30 then [⟨Severity.MEDIUM, "date", none⟩]
  else if days_old > 7 then [⟨Severity.LOW, "date", none⟩]
  else []

/-- `# Fever spike` block of the `=== SPIKE DETECTION ===` section:
`multiplier = fever / previous.fever_count` (Python float division,
modelled exactly over `ℚ`), with tiers >5 HIGH, >3 MEDIUM, >2 LOW. -/
def feverSpike (fever pf : Int) : List Warning :=
  if 0 < fever ∧ 0 < pf then
    if (5 : ℚ) < (fever : ℚ) / (pf : ℚ) then [⟨Severity.HIGH, "fever", some pf⟩]
    else if (3 : ℚ) < (fever : ℚ) / (pf : ℚ) then [⟨Severity.MEDIUM, "fever", some pf⟩]
    else if (2 : ℚ) < (fever : ℚ) / (pf : ℚ) then [⟨Severity.LOW, "fever", some pf⟩]
    else []
  else []

/-- `# Cough spike` block: only the >5 HIGH and >3 MEDIUM tiers exist in
the source (there is no `multiplier > 2` branch for cough). -/
def coughSpike (cough pc : Int) : List Warning :=
  if 0 < cough ∧ 0 < pc then
    if (5 : ℚ) < (cough : ℚ) / (pc : ℚ) then [⟨Severity.HIGH, "cough", some pc⟩]
    else if (3 : ℚ) < (cough : ℚ) / (pc : ℚ) then [⟨Severity.MEDIUM, "cough", some pc⟩]
    else []
  else []

/-- `# GI spike` block: only the >5 HIGH and >3 MEDIUM tiers exist in
the source (there is no `multiplier > 2` branch for gi). -/
def giSpike (gi pg : Int) : List Warning :=
  if 0 < gi ∧ 0 < pg then
    if (5 : ℚ) < (gi : ℚ) / (pg : ℚ) then [⟨Severity.HIGH, "gi", some pg⟩]
    else if (3 : ℚ) < (gi : ℚ) / (pg : ℚ) then [⟨Severity.MEDIUM, "gi", some pg⟩]
    else []
  else []

/-- `=== SPIKE DETECTION ===` section: runs only when the previous-day
query returned a row. -/
def spikeWarnings (fever cough gi : Int) : Option PrevCounts → List Warning
  | none => []
  | some prev =>
    feverSpike fever prev.fever_count ++
    coughSpike cough prev.cough_count ++
    giSpike gi prev.gi_count

/-- Python `date.weekday()` for an ordinal: Monday = 0 … Sunday = 6. -/
def weekday (ordinal : Int) : Int := (ordinal - 1) % 7

/-- `=== WEEKEND/HOLIDAY CHECK ===` section (Saturday = 5, Sunday = 6). -/
def weekendWarnings (report_date : Int) (total_symptoms : Int) : List Warning :=
  if weekday report_date = 5 ∨ weekday report_date = 6 then
    if total_symptoms > 50 then [⟨Severity.MEDIUM, "date", none⟩]
    else if total_symptoms > 20 then [⟨Severity.LOW, "date", none⟩]
    else []
  else []

/-- `=== ALL-ZERO CHECK ===` section. -/
def allZeroWarnings (fever cough gi : Int) : List Warning :=
  if fever = 0 ∧ cough = 0 ∧ gi = 0 then [⟨Severity.LOW, "symptoms", none⟩]
  else []

/-- `=== UNUSUALLY HIGH TOTAL ===` section (>200 HIGH, >100 MEDIUM). -/
def totalWarnings (total_symptoms : Int) : List Warning :=
  if total_symptoms > 200 then [⟨Severity.HIGH, "symptoms", none⟩]
  else if total_symptoms > 100 then [⟨Severity.MEDIUM, "symptoms", none⟩]
  else []

/-- `=== PATTERN DETECTION ===` section: round-number heuristic on fever
and cough (positive, multiple of 10, at least 50). -/
def roundNumberWarnings (fever cough : Int) : List Warning :=
  (if 0 < fever ∧ fever % 10 = 0 ∧ fever ≥ 50 then [⟨Severity.LOW, "fever", none⟩]
   else []) ++
  (if 0 < cough ∧ cough % 10 = 0 ∧ cough ≥ 50 then [⟨Severity.LOW, "cough", none⟩]
   else [])

/-- The per-warning weight of the `=== CALCULATE SUSPICION SCORE ===`
loop: HIGH adds 10, MEDIUM adds 5, LOW adds 2. -/
def severityWeight : Severity → Int
  | Severity.HIGH => 10
  | Severity.MEDIUM => 5
  | Severity.LOW => 2

/-- `validate_report(node_id, symptoms, report_date, db)`.

The store reads are passed explicitly: `existing_report` is whether the
`(node_id, report_date)` duplicate query returns a row, and
`previous_report` is the `(node_id, report_date - 1)` row, if any.
Symptom values arrive after the `int(...)` conversion of the source, so
they are `Int` here (a non-convertible payload raises before any of the
logic modelled below).  Raises become `Except.error`; the checks that
raise are evaluated in source order (negative counts, then the
future-date check, then the duplicate check) — the warning lists built
before a raise in the source are discarded by the raise, so building all
warnings after the raise checks is behaviour-identical. -/
def validate_report (fever cough gi : Int) (report_date today : Int)
    (existing_report : Bool) (previous_report : Option PrevCounts) :
    Except VErr VResult :=
  if fever < 0 then Except.error ⟨"symptoms.fever"⟩
  else if cough < 0 then Except.error ⟨"symptoms.cough"⟩
  else if gi < 0 then Except.error ⟨"symptoms.gi"⟩
  else if report_date > today then Except.error ⟨"date"⟩
  else if existing_report then Except.error ⟨"date"⟩
  else
    let warnings :=
      rangeWarnings fever cough gi ++
      staleWarnings (today - report_date) ++
      spikeWarnings fever cough gi previous_report ++
      weekendWarnings report_date (fever + cough + gi) ++
      allZeroWarnings fever cough gi ++
      totalWarnings (fever + cough + gi) ++
      roundNumberWarnings fever cough
    let suspicion_score :=
      warnings.foldl (fun acc w => acc + severityWeight w.severity) 0
    Except.ok
      { valid := true
        warnings := warnings
        errors := []
        suspicion_score := suspicion_score
        requires_review := decide (suspicion_score ≥ 15) }

/-- One `Node` row as read by `validate_node_exists`. -/
structure NodeRec where
  node_id : String
  status : String
deriving DecidableEq, Repr

/-- `validate_node_exists(node_id, db)`: unknown node or a status other
than `ACTIVE` raises `ValidationError('node_id', ...)`. -/
def validate_node_exists (nodes : List NodeRec) (node_id : String) :
    Except VErr Bool :=
  match nodes.find? (fun n => n.node_id == node_id) with
  | none => Except.error ⟨"node_id"⟩
  | some n => if n.status ≠ "ACTIVE" then Except.error ⟨"node_id"⟩ else Except.ok true

/-- The intake pipeline of `routes/node_routes.py::submit_report`:
`validate_node_exists` followed by `validate_report`. -/
def classify (nodes : List NodeRec) (node_id : String)
    (fever cough gi : Int) (report_date today : Int)
    (existing_report : Bool) (previous_report : Option PrevCounts) :
    Except VErr VResult :=
  match validate_node_exists nodes node_id with
  | Except.error e => Except.error e
  | Except.ok _ =>
      validate_report fever cough gi report_date today existing_report previous_report

/-- Observer: the day-over-day spike warnings for one symptom in a
warnings list — the entries whose `symptom` key is `s` and that carry a
`previous_value` key (exactly the spike-detection warnings do). -/
def spikeWarningsFor (ws : List Warning) (s : String) : List Warning :=
  ws.filter (fun w => w.subject == s && w.previous_value.isSome)

theorem spikeWarningsFor_range (f c g : Int) (s : String) :
    spikeWarningsFor (rangeWarnings f c g) s = [] := by
  unfold spikeWarningsFor rangeWarnings
  split_ifs <;> simp [List.filter]

theorem spikeWarningsFor_stale (d : Int) (s : String) :
    spikeWarningsFor (staleWarnings d) s = [] := by
  unfold spikeWarningsFor staleWarnings
  split_ifs <;> simp [List.filter]

theorem spikeWarningsFor_weekend (d t : Int) (s : String) :
    spikeWarningsFor (weekendWarnings d t) s = [] := by
  unfold spikeWarningsFor weekendWarnings
  split_ifs <;> simp [List.filter]

theorem spikeWarningsFor_allZero (f c g : Int) (s : String) :
    spikeWarningsFor (allZeroWarnings f c g) s = [] := by
  unfold spikeWarningsFor allZeroWarnings
  split_ifs <;> simp [List.filter]

theorem spikeWarningsFor_total (t : Int) (s : String) :
    spikeWarningsFor (totalWarnings t) s = [] := by
  unfold spikeWarningsFor totalWarnings
  split_ifs <;> simp [List.filter]

theorem spikeWarningsFor_round (f c : Int) (s : String) :
    spikeWarningsFor (roundNumberWarnings f c) s = [] := by
  unfold spikeWarningsFor roundNumberWarnings
  split_ifs <;> simp [List.filter]

theorem spikeWarningsFor_feverSpike_self (f pf : Int) :
    spikeWarningsFor (feverSpike f pf) "fever" = feverSpike f pf := by
  unfold spikeWarningsFor feverSpike
  split_ifs <;> simp [List.filter]

theorem spikeWarningsFor_feverSpike_cough (f pf : Int) :
    spikeWarningsFor (feverSpike f pf) "cough" = [] := by
  unfold spikeWarningsFor feverSpike
  split_ifs <;> simp [List.filter]

theorem spikeWarningsFor_feverSpike_gi (f pf : Int) :
    spikeWarningsFor (feverSpike f pf) "gi" = [] := by
  unfold spikeWarningsFor feverSpike
  split_ifs <;> simp [List.filter]

theorem spikeWarningsFor_coughSpike_self (c pc : Int) :
    spikeWarningsFor (coughSpike c pc) "cough" = coughSpike c pc := by
  unfold spikeWarningsFor coughSpike
  split_ifs <;> simp [List.filter]

theorem spikeWarningsFor_coughSpike_fever (c pc : Int) :
    spikeWarningsFor (coughSpike c pc) "fever" = [] := by
  unfold spikeWarningsFor coughSpike
  split_ifs <;> simp [List.filter]

theorem spikeWarningsFor_coughSpike_gi (c pc : Int) :
    spikeWarningsFor (coughSpike c pc) "gi" = [] := by
  unfold spikeWarningsFor coughSpike
  split_ifs <;> simp [List.filter]

theorem spikeWarningsFor_giSpike_self (g pg : Int) :
    spikeWarningsFor (giSpike g pg) "gi" = giSpike g pg := by
  unfold spikeWarningsFor giSpike
  split_ifs <;> simp [List.filter]

theorem spikeWarningsFor_giSpike_fever (g pg : Int) :
    spikeWarningsFor (giSpike g pg) "fever" = [] := by
  unfold spikeWarningsFor giSpike
  split_ifs <;> simp [List.filter]

theorem spikeWarningsFor_giSpike_cough (g pg : Int) :
    spikeWarningsFor (giSpike g pg) "cough" = [] := by
  unfold spikeWarningsFor giSpike
  split_ifs <;> simp [List.filter]

/-- If `validate_report` accepts, its warnings list is the in-order
concatenation of the seven warning sections. -/
theorem validate_report_ok_warnings (f c g rd td : Int) (ex : Bool)
    (prev : Option PrevCounts) (r : VResult)
    (h : validate_report f c g rd td ex prev = Except.ok r) :
    r.warnings =
      rangeWarnings f c g ++ staleWarnings (td - rd) ++
      spikeWarnings f c g prev ++ weekendWarnings rd (f + c + g) ++
      allZeroWarnings f c g ++ totalWarnings (f + c + g) ++
      roundNumberWarnings f c := by
  unfold validate_report at h
  split_ifs at h
  rw [show r = _ from (Except.ok.inj h).symm]

theorem spikeWarningsFor_append (a b : List Warning) (s : String) :
    spikeWarningsFor (a ++ b) s = spikeWarningsFor a s ++ spikeWarningsFor b s := by
  unfold spikeWarningsFor
  exact List.filter_append a b

/-- The suspicion-score loop is the sum of the per-warning weights. -/
theorem foldl_severityWeight (ws : List Warning) (a : Int) :
    ws.foldl (fun acc w => acc + severityWeight w.severity) a =
      a + (ws.map fun w => severityWeight w.severity).sum := by
  induction ws generalizing a with
  | nil => simp
  | cons w ws ih =>
    simp only [List.foldl_cons, List.map_cons, List.sum_cons, ih]
    ring

/-- Claim C1, counterexample.  The claim says the >2/>3/>5 →
LOW/MEDIUM/HIGH spike tiering applies identically to fever, cough and
gi.  Here the node's prior-day report has cough 2 and the new report has
cough 5, a day-over-day multiplier of 2.5 ∈ (2, 3], so the claim demands
a LOW cough spike warning — but `validate_report` returns no warnings at
all (the source has no `multiplier > 2` branch for cough). -/
theorem spike_low_tier_counterexample :
    validate_report 1 5 0 8 8 false (some ⟨1, 2, 1⟩) =
      Except.ok ⟨true, [], [], 0, false⟩ ∧
    (2 : ℚ) < (5 : ℚ) / (2 : ℚ) ∧ ¬ (3 : ℚ) < (5 : ℚ) / (2 : ℚ) := by
  refine ⟨?_, by norm_num, by norm_num⟩
  simp [validate_report, rangeWarnings, staleWarnings, spikeWarnings, feverSpike,
    coughSpike, giSpike, weekendWarnings, allZeroWarnings, totalWarnings,
    roundNumberWarnings, weekday]
  norm_num

/-- Claim C1 (amended): for every accepted report whose node has a
prior-day report, the spike warnings emitted for each symptom (the
warnings carrying that symptom name and a `previous_value`) are tiered
on the current/previous multiplier — fever: HIGH when >5, MEDIUM when
>3, LOW when >2; cough and gi: HIGH when >5, MEDIUM when >3, and **no
LOW tier** — each evaluated independently, only when the prior count
(and the current count) is positive. -/
theorem spike_tiering_per_symptom (f c g rd td : Int) (ex : Bool)
    (p : PrevCounts) (r : VResult)
    (h : validate_report f c g rd td ex (some p) = Except.ok r) :
    spikeWarningsFor r.warnings "fever" =
      (if 0 < f ∧ 0 < p.fever_count then
         if (5 : ℚ) < (f : ℚ) / (p.fever_count : ℚ) then
           [⟨Severity.HIGH, "fever", some p.fever_count⟩]
         else if (3 : ℚ) < (f : ℚ) / (p.fever_count : ℚ) then
           [⟨Severity.MEDIUM, "fever", some p.fever_count⟩]
         else if (2 : ℚ) < (f : ℚ) / (p.fever_count : ℚ) then
           [⟨Severity.LOW, "fever", some p.fever_count⟩]
         else []
       else []) ∧
    spikeWarningsFor r.warnings "cough" =
      (if 0 < c ∧ 0 < p.cough_count then
         if (5 : ℚ) < (c : ℚ) / (p.cough_count : ℚ) then
           [⟨Severity.HIGH, "cough", some p.cough_count⟩]
         else if (3 : ℚ) < (c : ℚ) / (p.cough_count : ℚ) then
           [⟨Severity.MEDIUM, "cough", some p.cough_count⟩]
         else []
       else []) ∧
    spikeWarningsFor r.warnings "gi" =
      (if 0 < g ∧ 0 < p.gi_count then
         if (5 : ℚ) < (g : ℚ) / (p.gi_count : ℚ) then
           [⟨Severity.HIGH, "gi", some p.gi_count⟩]
         else if (3 : ℚ) < (g : ℚ) / (p.gi_count : ℚ) then
           [⟨Severity.MEDIUM, "gi", some p.gi_count⟩]
         else []
       else []) := by
  rw [validate_report_ok_warnings f c g rd td ex (some p) r h]
  simp only [spikeWarnings, spikeWarningsFor_append, spikeWarningsFor_range,
    spikeWarningsFor_stale, spikeWarningsFor_weekend, spikeWarningsFor_allZero,
    spikeWarningsFor_total, spikeWarningsFor_round,
    spikeWarningsFor_feverSpike_self, spikeWarningsFor_feverSpike_cough,
    spikeWarningsFor_feverSpike_gi, spikeWarningsFor_coughSpike_self,
    spikeWarningsFor_coughSpike_fever, spikeWarningsFor_coughSpike_gi,
    spikeWarningsFor_giSpike_self, spikeWarningsFor_giSpike_fever,
    spikeWarningsFor_giSpike_cough, List.append_nil, List.nil_append]
  exact ⟨rfl, rfl, rfl⟩

/-- Witness for `spike_tiering_per_symptom`: fever = cough = gi = 7
against a prior day of 2 each (multiplier 3.5) yields exactly one MEDIUM
spike warning per symptom. -/
theorem spike_tiering_per_symptom_witness :
    validate_report 7 7 7 8 8 false (some ⟨2, 2, 2⟩) =
      Except.ok ⟨true, [⟨Severity.MEDIUM, "fever", some 2⟩,
        ⟨Severity.MEDIUM, "cough", some 2⟩, ⟨Severity.MEDIUM, "gi", some 2⟩],
        [], 15, true⟩ ∧
    spikeWarningsFor [⟨Severity.MEDIUM, "fever", some 2⟩,
        ⟨Severity.MEDIUM, "cough", some 2⟩, ⟨Severity.MEDIUM, "gi", some 2⟩] "cough" =
      [⟨Severity.MEDIUM, "cough", some 2⟩] := by
  have hok : validate_report 7 7 7 8 8 false (some ⟨2, 2, 2⟩) =
      Except.ok ⟨true, [⟨Severity.MEDIUM, "fever", some 2⟩,
        ⟨Severity.MEDIUM, "cough", some 2⟩, ⟨Severity.MEDIUM, "gi", some 2⟩],
        [], 15, true⟩ := by
    simp [validate_report, rangeWarnings, staleWarnings, spikeWarnings, feverSpike,
      coughSpike, giSpike, weekendWarnings, allZeroWarnings, totalWarnings,
      roundNumberWarnings, weekday, severityWeight]
    norm_num
  refine ⟨hok, ?_⟩
  have h2 := (spike_tiering_per_symptom 7 7 7 8 8 false ⟨2, 2, 2⟩ _ hok).2.1
  rw [h2]
  norm_num

/-- Claim C2: for every accepted report, the suspicion score is the sum
over the returned warnings of 10 per HIGH, 5 per MEDIUM and 2 per LOW
warning, and `requires_review` holds exactly when that score is ≥ 15. -/
theorem suspicion_score_weighted_sum (f c g rd td : Int) (ex : Bool)
    (prev : Option PrevCounts) (r : VResult)
    (h : validate_report f c g rd td ex prev = Except.ok r) :
    r.suspicion_score = (r.warnings.map fun w => severityWeight w.severity).sum ∧
    (r.requires_review = true ↔ 15 ≤ r.suspicion_score) := by
  unfold validate_report at h
  split_ifs at h
  rw [show r = _ from (Except.ok.inj h).symm]
  constructor
  · exact foldl_severityWeight _ 0 |>.trans (by ring_nf)
  · simp [ge_iff_le]

/-- Witness for `suspicion_score_weighted_sum` at fever 120, cough 150,
gi 70 (the spec's ≥40 scenario: four HIGH warnings and two LOW). -/
theorem suspicion_score_weighted_sum_witness :
    validate_report 120 150 70 8 8 false none =
      Except.ok ⟨true, [⟨Severity.HIGH, "fever", none⟩, ⟨Severity.HIGH, "cough", none⟩,
        ⟨Severity.HIGH, "gi", none⟩, ⟨Severity.HIGH, "symptoms", none⟩,
        ⟨Severity.LOW, "fever", none⟩, ⟨Severity.LOW, "cough", none⟩], [], 44, true⟩ ∧
    (44 : Int) = ([⟨Severity.HIGH, "fever", none⟩, ⟨Severity.HIGH, "cough", none⟩,
        ⟨Severity.HIGH, "gi", none⟩, ⟨Severity.HIGH, "symptoms", none⟩,
        ⟨Severity.LOW, "fever", none⟩, ⟨Severity.LOW, "cough", none⟩].map
          fun (w : Warning) => severityWeight w.severity).sum ∧
    (true = true ↔ (15 : Int) ≤ 44) := by
  have hok : validate_report 120 150 70 8 8 false none =
      Except.ok ⟨true, [⟨Severity.HIGH, "fever", none⟩, ⟨Severity.HIGH, "cough", none⟩,
        ⟨Severity.HIGH, "gi", none⟩, ⟨Severity.HIGH, "symptoms", none⟩,
        ⟨Severity.LOW, "fever", none⟩, ⟨Severity.LOW, "cough", none⟩], [], 44, true⟩ := by
    norm_num [validate_report, rangeWarnings, staleWarnings, spikeWarnings,
      weekendWarnings, allZeroWarnings, totalWarnings, roundNumberWarnings,
      weekday, severityWeight]
  exact ⟨hok, (suspicion_score_weighted_sum 120 150 70 8 8 false none _ hok).1,
    (suspicion_score_weighted_sum 120 150 70 8 8 false none _ hok).2⟩

/-- Claim C3: for every non-negative integer symptom triple — given a
non-future report date, a known node with status ACTIVE, and no existing
report for the (node, date) pair — the intake pipeline accepts: no
`ValidationError` is raised on account of the symptom values, the result
has `valid = true` and an empty `errors` list, and only the warnings and
the (derived) suspicion score / review flag depend on the triple. -/
theorem nonneg_symptoms_always_accepted (nodes : List NodeRec)
    (node_id : String) (n : NodeRec) (f c g rd td : Int) (ex : Bool)
    (prev : Option PrevCounts)
    (hn : nodes.find? (fun x => x.node_id == node_id) = some n)
    (hs : n.status = "ACTIVE")
    (hf : 0 ≤ f) (hc : 0 ≤ c) (hg : 0 ≤ g)
    (hd : rd ≤ td) (hex : ex = false) :
    ∃ r, classify nodes node_id f c g rd td ex prev = Except.ok r ∧
      r.valid = true ∧ r.errors = [] ∧
      r.requires_review = decide (15 ≤ r.suspicion_score) := by
  subst hex
  unfold classify validate_node_exists
  rw [hn]
  simp only [hs, ne_eq, not_true_eq_false, if_false]
  unfold validate_report
  rw [if_neg (by omega), if_neg (by omega), if_neg (by omega),
    if_neg (by omega), if_neg (by simp)]
  exact ⟨_, rfl, rfl, rfl, by simp [ge_iff_le]⟩

/-- Witness for `nonneg_symptoms_always_accepted`: the spec's quiet
scenario (clinic_1, today, fever 5, cough 8, gi 3). -/
theorem nonneg_symptoms_always_accepted_witness :
    ([⟨"clinic_1", "ACTIVE"⟩] : List NodeRec).find?
        (fun x => x.node_id == "clinic_1") = some ⟨"clinic_1", "ACTIVE"⟩ ∧
    ∃ r, classify [⟨"clinic_1", "ACTIVE"⟩] "clinic_1" 5 8 3 8 8 false none =
        Except.ok r ∧ r.valid = true ∧ r.errors = [] ∧
      r.requires_review = decide (15 ≤ r.suspicion_score) := by
  refine ⟨by rfl, ?_⟩
  exact nonneg_symptoms_always_accepted [⟨"clinic_1", "ACTIVE"⟩] "clinic_1"
    ⟨"clinic_1", "ACTIVE"⟩ 5 8 3 8 8 false none (by rfl) rfl
    (by norm_num) (by norm_num) (by norm_num) (by norm_num) rfl

/-! ## Audit trail (`backend/services/audit.py`) -/

/-- One `audit_trail` row, in chain (timestamp) order.  The surrogate
`id` and the wall-clock `timestamp` are omitted (the list order models
the `ORDER BY timestamp ASC` traversal; both fields are display-only in
the verification results). -/
structure AuditEntry where
  report_id : String
  current_hash : String
  previous_hash : Option String
deriving DecidableEq, Repr

/-- One broken-link dict of `AuditTrail.verify_chain` (position,
report_id, error text, expected-vs-actual previous hash, and the `gap`
classification hint; `audit_id`/`timestamp` omitted as display-only). -/
structure BrokenLink where
  position : Nat
  report_id : String
  error : String
  expected_previous : Option String
  actual_previous : Option String
  gap : Option String
deriving DecidableEq, Repr

/-- The dict returned by `AuditTrail.verify_chain`. -/
structure ChainResult where
  valid : Bool
  total_entries : Nat
  verified_entries : Nat
  broken_links : List BrokenLink
  chain_integrity : ℚ
  error : Option String
deriving DecidableEq, Repr

/-- The broken-link record for a first entry carrying a previous hash. -/
def mkFirstBroken (e : AuditEntry) : BrokenLink :=
  ⟨0, e.report_id, "First entry should have null previous_hash",
    none, e.previous_hash, none⟩

/-- The broken-link record for a subsequent entry whose `previous_hash`
does not match the prior entry's `current_hash`. -/
def mkLinkBroken (pos : Nat) (prev e : AuditEntry) : BrokenLink :=
  ⟨pos, e.report_id, "Chain link broken - previous_hash mismatch",
    some prev.current_hash, e.previous_hash,
    some "possible insertion or deletion"⟩

/-- Python `round(x, 4)` (round half to even at the 4th decimal),
applied to the exact rational in place of the IEEE double. -/
def pyRound4 (q : ℚ) : ℚ :=
  let scaled := q * 10000
  let fl : Int := ⌊scaled⌋
  let frac := scaled - fl
  let n : Int :=
    if frac > 1 / 2 then fl + 1
    else if frac < 1 / 2 then fl
    else if fl % 2 = 0 then fl else fl + 1
  (n : ℚ) / 10000

/-- The `i > 0` arm of the `verify_chain` loop: walk the remaining
entries, counting verified links and collecting broken ones in position
order.  `prev` is `all_audits[i - 1]`, `pos` the enumerate index `i`. -/
def checkLinks (prev : AuditEntry) (pos : Nat) :
    List AuditEntry → Nat × List BrokenLink
  | [] => (0, [])
  | e :: rest =>
    let t := checkLinks e (pos + 1) rest
    if e.previous_hash = some prev.current_hash then (t.1 + 1, t.2)
    else (t.1, mkLinkBroken pos prev e :: t.2)

/-- `AuditTrail.verify_chain`: empty ledger short-circuits to a fully
valid result; otherwise entry 0 must have a null `previous_hash` and
each later entry's `previous_hash` must equal its predecessor's
`current_hash`.  `chain_integrity = verified / total`, rounded to 4
decimal places. -/
def verify_chain (entries : List AuditEntry) : ChainResult :=
  match entries with
  | [] => ⟨true, 0, 0, [], 1, none⟩
  | e0 :: rest =>
    let first : Nat × List BrokenLink :=
      if e0.previous_hash = none then (1, []) else (0, [mkFirstBroken e0])
    let t := checkLinks e0 1 rest
    let verified := first.1 + t.1
    let broken := first.2 ++ t.2
    let total := rest.length + 1
    ⟨broken.isEmpty, total, verified, broken,
      pyRound4 ((verified : ℚ) / (total : ℚ)),
      if broken.isEmpty then none
      else some ("Chain compromised: " ++ toString broken.length ++
        " broken link(s) detected")⟩

/-- The chain invariant continuing from `prev`: each entry's
`previous_hash` equals its predecessor's `current_hash`. -/
def wellLinkedFrom (prev : AuditEntry) : List AuditEntry → Bool
  | [] => true
  | e :: rest =>
    decide (e.previous_hash = some prev.current_hash) && wellLinkedFrom e rest

/-- A correctly linked ledger: entry 0 has a null `previous_hash` and
every later entry links to its predecessor. -/
def wellLinked : List AuditEntry → Bool
  | [] => true
  | e0 :: rest => decide (e0.previous_hash = none) && wellLinkedFrom e0 rest

/-- The last entry of `xs`, or `prev` if `xs` is empty: the predecessor
that the entry following `xs` is checked against. -/
def lastEntry (prev : AuditEntry) (xs : List AuditEntry) : AuditEntry :=
  xs.foldl (fun _ e => e) prev

theorem lastEntry_cons (prev x : AuditEntry) (xs : List AuditEntry) :
    lastEntry prev (x :: xs) = lastEntry x xs := rfl

theorem checkLinks_of_wellLinkedFrom (xs : List AuditEntry) :
    ∀ (prev : AuditEntry) (pos : Nat), wellLinkedFrom prev xs = true →
      checkLinks prev pos xs = (xs.length, []) := by
  induction xs with
  | nil => intro prev pos _; rfl
  | cons e rest ih =>
    intro prev pos h
    unfold wellLinkedFrom at h
    rw [Bool.and_eq_true, decide_eq_true_eq] at h
    unfold checkLinks
    rw [ih e (pos + 1) h.2, if_pos h.1]
    simp [List.length_cons]

theorem pyRound4_one : pyRound4 1 = 1 := by
  unfold pyRound4
  norm_num

theorem wellLinkedFrom_append (xs ys : List AuditEntry) :
    ∀ prev : AuditEntry, wellLinkedFrom prev (xs ++ ys) =
      (wellLinkedFrom prev xs && wellLinkedFrom (lastEntry prev xs) ys) := by
  induction xs with
  | nil => intro prev; simp [wellLinkedFrom, lastEntry]
  | cons x xs ih =>
    intro prev
    simp only [List.cons_append, wellLinkedFrom, List.append_eq, ih x,
      lastEntry_cons, Bool.and_assoc]

/-- A single bad link: `xs` is well linked from `prev`, `e` fails to
link to the last entry of `xs`, and `ys` is well linked from `e`.  The
loop then verifies everything except `e` and records exactly one broken
link, at `e`'s position. -/
theorem checkLinks_one_break (xs : List AuditEntry) :
    ∀ (prev : AuditEntry) (pos : Nat) (e : AuditEntry) (ys : List AuditEntry),
      wellLinkedFrom prev xs = true →
      e.previous_hash ≠ some (lastEntry prev xs).current_hash →
      wellLinkedFrom e ys = true →
      checkLinks prev pos (xs ++ e :: ys) =
        (xs.length + ys.length,
         [mkLinkBroken (pos + xs.length) (lastEntry prev xs) e]) := by
  induction xs with
  | nil =>
    intro prev pos e ys _ hne hys
    rw [List.nil_append]
    unfold checkLinks
    have hne' : e.previous_hash ≠ some prev.current_hash := hne
    rw [checkLinks_of_wellLinkedFrom ys e (pos + 1) hys, if_neg hne']
    simp [lastEntry]
  | cons x xs ih =>
    intro prev pos e ys hx hne hys
    unfold wellLinkedFrom at hx
    rw [Bool.and_eq_true, decide_eq_true_eq] at hx
    rw [lastEntry_cons] at hne
    rw [List.cons_append]
    unfold checkLinks
    rw [ih x (pos + 1) e ys hx.2 hne hys, if_pos hx.1, lastEntry_cons]
    have hpos : pos + 1 + xs.length = pos + (x :: xs).length := by
      simp [List.length_cons]; omega
    have hlen : xs.length + ys.length + 1 = (x :: xs).length + ys.length := by
      simp [List.length_cons]; omega
    rw [show ((xs.length + ys.length, [mkLinkBroken (pos + 1 + xs.length)
        (lastEntry x xs) e]) : Nat × List BrokenLink).1 + 1
      = xs.length + ys.length + 1 from rfl]
    simp only [hpos, hlen]

/-- Evaluation of `verify_chain` on a correctly linked ledger. -/
theorem verify_chain_linked_eval (l : List AuditEntry)
    (h : wellLinked l = true) :
    verify_chain l = ⟨true, l.length, l.length, [], 1, none⟩ := by
  cases l with
  | nil => rfl
  | cons e0 rest =>
    unfold wellLinked at h
    rw [Bool.and_eq_true, decide_eq_true_eq] at h
    have hq : ((1 + rest.length : ℕ) : ℚ) / ((rest.length + 1 : ℕ) : ℚ) = 1 := by
      rw [div_eq_one_iff_eq (by positivity)]
      push_cast
      ring
    simp only [verify_chain, h.1, if_pos rfl,
      checkLinks_of_wellLinkedFrom rest e0 1 h.2, List.nil_append,
      List.isEmpty_nil, List.length_cons, if_true]
    rw [hq, pyRound4_one, Nat.add_comm 1 rest.length]

/-- Claim C4: over any correctly linked ledger (entry 0 has a null
`previous_hash`, every later entry's `previous_hash` equals its
predecessor's `current_hash`), `verify_chain` returns valid = true, no
broken links, all N entries verified, and chain_integrity = 1.0. -/
theorem verify_chain_of_wellLinked (l : List AuditEntry)
    (h : wellLinked l = true) :
    verify_chain l = ⟨true, l.length, l.length, [], 1, none⟩ :=
  verify_chain_linked_eval l h

/-- Witness for `verify_chain_of_wellLinked`: a two-entry chain. -/
theorem verify_chain_of_wellLinked_witness :
    wellLinked [⟨"r1", "a", none⟩, ⟨"r2", "b", some "a"⟩] = true ∧
    verify_chain [⟨"r1", "a", none⟩, ⟨"r2", "b", some "a"⟩] =
      ⟨true, 2, 2, [], 1, none⟩ := by
  refine ⟨by decide, ?_⟩
  exact verify_chain_of_wellLinked [⟨"r1", "a", none⟩, ⟨"r2", "b", some "a"⟩]
    (by decide)

/-- Claim C5, counterexample.  The claim quantifies over every correctly
linked chain of ≥ 3 entries.  In this degenerate chain every entry has
the same `current_hash` "a", so after removing the middle entry the
survivor still links to its new predecessor by accident: `verify_chain`
reports valid = true with no broken links, not valid = false with one. -/
theorem chain_removal_counterexample :
    wellLinked [⟨"r0", "a", none⟩, ⟨"r1", "a", some "a"⟩,
      ⟨"r2", "a", some "a"⟩] = true ∧
    verify_chain [⟨"r0", "a", none⟩, ⟨"r2", "a", some "a"⟩] =
      ⟨true, 2, 2, [], 1, none⟩ := by
  refine ⟨by decide, ?_⟩
  exact verify_chain_linked_eval [⟨"r0", "a", none⟩, ⟨"r2", "a", some "a"⟩]
    (by decide)

/-- Claim C5 (amended): removing one middle entry `rem` from a correctly
linked chain is detected — **provided** `rem`'s `current_hash` differs
from its predecessor's `current_hash` (automatic for genuine SHA-256
entries of distinct reports, but not forced by the chain structure
itself, as `chain_removal_counterexample` shows).  Then `verify_chain`
over the shortened sequence reports valid = false with exactly one
broken link, positioned at the entry `b` that followed the removed one,
whose expected previous hash is the predecessor's `current_hash` and
whose actual previous hash is the removed entry's `current_hash`. -/
theorem chain_middle_removal_detected (p0 : AuditEntry)
    (ptail : List AuditEntry) (rem b : AuditEntry) (ys : List AuditEntry)
    (hwl : wellLinked (p0 :: (ptail ++ rem :: b :: ys)) = true)
    (hdist : rem.current_hash ≠ (lastEntry p0 ptail).current_hash) :
    (verify_chain (p0 :: (ptail ++ b :: ys))).valid = false ∧
    (verify_chain (p0 :: (ptail ++ b :: ys))).broken_links =
      [mkLinkBroken (1 + ptail.length) (lastEntry p0 ptail) b] ∧
    b.previous_hash = some rem.current_hash := by
  unfold wellLinked at hwl
  rw [Bool.and_eq_true, decide_eq_true_eq] at hwl
  obtain ⟨h0, hrest⟩ := hwl
  rw [wellLinkedFrom_append, Bool.and_eq_true] at hrest
  obtain ⟨hp, htail⟩ := hrest
  unfold wellLinkedFrom at htail
  rw [Bool.and_eq_true, decide_eq_true_eq] at htail
  obtain ⟨_, htail2⟩ := htail
  unfold wellLinkedFrom at htail2
  rw [Bool.and_eq_true, decide_eq_true_eq] at htail2
  obtain ⟨hb, hys⟩ := htail2
  have hne : b.previous_hash ≠ some (lastEntry p0 ptail).current_hash := by
    rw [hb]
    intro hcon
    exact hdist (Option.some.inj hcon)
  have hchk := checkLinks_one_break ptail p0 1 b ys hp hne hys
  refine ⟨?_, ?_, hb⟩
  · simp only [verify_chain, h0, if_pos rfl, hchk, List.nil_append]
    simp
  · simp only [verify_chain, h0, if_pos rfl, hchk, List.nil_append]
    simp

/-- Witness for `chain_middle_removal_detected`: remove the middle entry
of a three-entry chain with distinct hashes. -/
theorem chain_middle_removal_detected_witness :
    wellLinked [⟨"r0", "h0", none⟩, ⟨"r1", "h1", some "h0"⟩,
      ⟨"r2", "h2", some "h1"⟩] = true ∧
    (verify_chain [⟨"r0", "h0", none⟩, ⟨"r2", "h2", some "h1"⟩]).valid = false ∧
    (verify_chain [⟨"r0", "h0", none⟩, ⟨"r2", "h2", some "h1"⟩]).broken_links =
      [mkLinkBroken 1 ⟨"r0", "h0", none⟩ ⟨"r2", "h2", some "h1"⟩] ∧
    (⟨"r2", "h2", some "h1"⟩ : AuditEntry).previous_hash = some "h1" := by
  refine ⟨by decide, ?_⟩
  exact chain_middle_removal_detected ⟨"r0", "h0", none⟩ []
    ⟨"r1", "h1", some "h0"⟩ ⟨"r2", "h2", some "h1"⟩ [] (by decide) (by decide)

/-- Claim C9: `verify_chain` on an empty ledger short-circuits before
the `verified / total` ratio (which would be 0/0) and returns a fully
valid result with chain_integrity 1.0. -/
theorem verify_chain_empty :
    verify_chain ([] : List AuditEntry) = ⟨true, 0, 0, [], 1, none⟩ := rfl

/-! ## Aggregation service (`backend/services/aggregation.py`) -/

/-- One `daily_reports` row as read by `aggregate_date`. -/
structure ReportRow where
  node_id : String
  date : Int
  fever_count : Int
  cough_count : Int
  gi_count : Int
deriving DecidableEq, Repr

/-- One `aggregated_signals` row. -/
structure SignalRow where
  date : Int
  total_fever : Int
  total_cough : Int
  total_gi : Int
  participating_nodes : Nat
  risk_score : ℚ
  risk_level : String
  anomaly_detected : Bool
  computed_at : Int
deriving DecidableEq, Repr

/-- The store state visible to the aggregation service. -/
structure AggDB where
  reports : List ReportRow
  signals : List SignalRow
deriving DecidableEq, Repr

/-- `AggregationService._compute_risk_score`: rule-based weighted sum,
clamped to [0, 100].  (`participating_nodes` is accepted but unused, as
in the source.) -/
def compute_risk_score (total_fever total_cough total_gi : Int)
    (participating_nodes : Nat) : ℚ :=
  let score : ℚ :=
    (if total_fever ≥ 300 then (35 : ℚ)
     else if total_fever ≥ 150 then 20
     else if total_fever ≥ 50 then 10
     else 0) +
    (if total_cough ≥ 400 then (30 : ℚ)
     else if total_cough ≥ 200 then 18
     else if total_cough ≥ 75 then 8
     else 0) +
    (if total_gi ≥ 200 then (20 : ℚ)
     else if total_gi ≥ 100 then 12
     else if total_gi ≥ 30 then 5
     else 0) +
    (if total_fever + total_cough + total_gi ≥ 900 then (15 : ℚ)
     else if total_fever + total_cough + total_gi ≥ 450 then 8
     else if total_fever + total_cough + total_gi ≥ 150 then 3
     else 0)
  min 100 (max 0 score)

/-- `AggregationService._compute_risk_level`. -/
def compute_risk_level (risk_score : ℚ) : String :=
  if risk_score ≥ 60 then "HIGH"
  else if risk_score ≥ 30 then "MODERATE"
  else "LOW"

/-- The upsert of `aggregate_date`: mutate the first `aggregated_signals`
row with this date in place, or append a new row. -/
def upsertSignal : List SignalRow → SignalRow → List SignalRow
  | [], new => [new]
  | s :: rest, new =>
    if s.date = new.date then new :: rest else s :: upsertSignal rest new

/-- `AggregationService.aggregate_date(target_date)`: rejects future
dates, sums the day's reports, counts distinct nodes, computes the risk
score/level, upserts the signal row keyed by date, and returns the
aggregated dict.  `today` is `date.today()` and `now` the
`datetime.utcnow()` written to `computed_at`. -/
def aggregate_date (today now target : Int) (db : AggDB) :
    Except String (SignalRow × AggDB) :=
  if target > today then
    Except.error ("Cannot aggregate future date")
  else
    let reports := db.reports.filter (fun r => r.date == target)
    let total_fever := (reports.map (fun r => r.fever_count)).sum
    let total_cough := (reports.map (fun r => r.cough_count)).sum
    let total_gi := (reports.map (fun r => r.gi_count)).sum
    let participating_nodes := (reports.map (fun r => r.node_id)).dedup.length
    let risk_score := compute_risk_score total_fever total_cough total_gi
      participating_nodes
    let risk_level := compute_risk_level risk_score
    let row : SignalRow :=
      ⟨target, total_fever, total_cough, total_gi, participating_nodes,
        risk_score, risk_level, false, now⟩
    Except.ok (row, ⟨db.reports, upsertSignal db.signals row⟩)

theorem upsertSignal_mem (sigs : List SignalRow) (new : SignalRow) :
    ∃ s ∈ upsertSignal sigs new, s.date = new.date := by
  induction sigs with
  | nil => exact ⟨new, by simp [upsertSignal]⟩
  | cons s rest ih =>
    unfold upsertSignal
    split_ifs with hd
    · exact ⟨new, by simp⟩
    · obtain ⟨x, hx, hxd⟩ := ih
      exact ⟨x, by simp [hx], hxd⟩

theorem upsertSignal_length_of_mem (sigs : List SignalRow) (new : SignalRow)
    (h : ∃ s ∈ sigs, s.date = new.date) :
    (upsertSignal sigs new).length = sigs.length := by
  induction sigs with
  | nil => simp at h
  | cons s rest ih =>
    unfold upsertSignal
    split_ifs with hd
    · simp
    · obtain ⟨x, hx, hxd⟩ := h
      rcases List.mem_cons.mp hx with rfl | hx2
      · exact absurd hxd hd
      · simp [ih ⟨x, hx2, hxd⟩]

/-- Claim C7: totals fever = 200, cough = 100, gi = 20 score
20 + 8 + 0 + 3 = 31, giving risk level MODERATE; and in general the
level is HIGH iff the score is ≥ 60, MODERATE iff it is in [30, 60),
and LOW iff it is below 30. -/
theorem risk_score_scenario :
    compute_risk_score 200 100 20 4 = 31 ∧
    compute_risk_level (compute_risk_score 200 100 20 4) = "MODERATE" ∧
    ∀ s : ℚ, (compute_risk_level s = "HIGH" ↔ 60 ≤ s) ∧
      (compute_risk_level s = "MODERATE" ↔ 30 ≤ s ∧ s < 60) ∧
      (compute_risk_level s = "LOW" ↔ s < 30) := by
  have h31 : compute_risk_score 200 100 20 4 = 31 := by
    norm_num [compute_risk_score]
  refine ⟨h31, ?_, ?_⟩
  · rw [h31]
    norm_num [compute_risk_level]
  · intro s
    unfold compute_risk_level
    split_ifs with h1 h2
    · exact ⟨iff_of_true rfl h1,
        iff_of_false (by decide) (by rintro ⟨-, hlt⟩; rw [ge_iff_le] at h1; linarith),
        iff_of_false (by decide) (by intro hlt; rw [ge_iff_le] at h1; linarith)⟩
    · exact ⟨iff_of_false (by decide) h1,
        iff_of_true rfl ⟨h2, lt_of_not_le h1⟩,
        iff_of_false (by decide) (by intro hlt; rw [ge_iff_le] at h2; linarith)⟩
    · exact ⟨iff_of_false (by decide) h1,
        iff_of_false (by decide) (by rintro ⟨hge, -⟩; exact h2 hge),
        iff_of_true rfl (lt_of_not_le h2)⟩

/-- Claim C8: `aggregate_date` is idempotent over a fixed report set —
a second run for the same date on the state left by the first returns
the same totals, node count, risk score and risk level (only the
`computed_at` wall-clock differs), and it updates the existing per-date
signal row in place: the signals table does not grow. -/
theorem aggregate_date_idempotent (today now1 now2 target : Int)
    (db db1 db2 : AggDB) (r1 r2 : SignalRow)
    (h1 : aggregate_date today now1 target db = Except.ok (r1, db1))
    (h2 : aggregate_date today now2 target db1 = Except.ok (r2, db2)) :
    r2.total_fever = r1.total_fever ∧ r2.total_cough = r1.total_cough ∧
    r2.total_gi = r1.total_gi ∧
    r2.participating_nodes = r1.participating_nodes ∧
    r2.risk_score = r1.risk_score ∧ r2.risk_level = r1.risk_level ∧
    db2.signals.length = db1.signals.length := by
  unfold aggregate_date at h1 h2
  split_ifs at h1 h2 with hf
  simp only [Except.ok.injEq, Prod.mk.injEq] at h1 h2
  obtain ⟨hr1, hdb1⟩ := h1
  obtain ⟨hr2, hdb2⟩ := h2
  subst hdb1
  rw [← hr1, ← hr2]
  refine ⟨rfl, rfl, rfl, rfl, rfl, rfl, ?_⟩
  subst hdb2
  refine upsertSignal_length_of_mem _ _ ?_
  obtain ⟨s, hs, hsd⟩ := upsertSignal_mem db.signals
    ⟨target,
      ((db.reports.filter (fun r => r.date == target)).map (fun r => r.fever_count)).sum,
      ((db.reports.filter (fun r => r.date == target)).map (fun r => r.cough_count)).sum,
      ((db.reports.filter (fun r => r.date == target)).map (fun r => r.gi_count)).sum,
      ((db.reports.filter (fun r => r.date == target)).map (fun r => r.node_id)).dedup.length,
      _, _, false, now1⟩
  exact ⟨s, hs, hsd⟩

/-- Witness for `aggregate_date_idempotent`: one stored report for the
target date; both runs return totals (10, 5, 2), one node, score 0,
level LOW, and the signals table keeps a single row. -/
theorem aggregate_date_idempotent_witness :
    aggregate_date 8 1 8 ⟨[⟨"n1", 8, 10, 5, 2⟩], []⟩ =
      Except.ok (⟨8, 10, 5, 2, 1, 0, "LOW", false, 1⟩,
        ⟨[⟨"n1", 8, 10, 5, 2⟩], [⟨8, 10, 5, 2, 1, 0, "LOW", false, 1⟩]⟩) ∧
    aggregate_date 8 2 8 ⟨[⟨"n1", 8, 10, 5, 2⟩],
        [⟨8, 10, 5, 2, 1, 0, "LOW", false, 1⟩]⟩ =
      Except.ok (⟨8, 10, 5, 2, 1, 0, "LOW", false, 2⟩,
        ⟨[⟨"n1", 8, 10, 5, 2⟩], [⟨8, 10, 5, 2, 1, 0, "LOW", false, 2⟩]⟩) ∧
    ((⟨8, 10, 5, 2, 1, 0, "LOW", false, 2⟩ : SignalRow).total_fever =
        (⟨8, 10, 5, 2, 1, 0, "LOW", false, 1⟩ : SignalRow).total_fever ∧
      (⟨8, 10, 5, 2, 1, 0, "LOW", false, 2⟩ : SignalRow).total_cough =
        (⟨8, 10, 5, 2, 1, 0, "LOW", false, 1⟩ : SignalRow).total_cough ∧
      (⟨8, 10, 5, 2, 1, 0, "LOW", false, 2⟩ : SignalRow).total_gi =
        (⟨8, 10, 5, 2, 1, 0, "LOW", false, 1⟩ : SignalRow).total_gi ∧
      (⟨8, 10, 5, 2, 1, 0, "LOW", false, 2⟩ : SignalRow).participating_nodes =
        (⟨8, 10, 5, 2, 1, 0, "LOW", false, 1⟩ : SignalRow).participating_nodes ∧
      (⟨8, 10, 5, 2, 1, 0, "LOW", false, 2⟩ : SignalRow).risk_score =
        (⟨8, 10, 5, 2, 1, 0, "LOW", false, 1⟩ : SignalRow).risk_score ∧
      (⟨8, 10, 5, 2, 1, 0, "LOW", false, 2⟩ : SignalRow).risk_level =
        (⟨8, 10, 5, 2, 1, 0, "LOW", false, 1⟩ : SignalRow).risk_level ∧
      (⟨[⟨"n1", 8, 10, 5, 2⟩], [⟨8, 10, 5, 2, 1, 0, "LOW", false, 2⟩]⟩ :
          AggDB).signals.length =
        (⟨[⟨"n1", 8, 10, 5, 2⟩], [⟨8, 10, 5, 2, 1, 0, "LOW", false, 1⟩]⟩ :
          AggDB).signals.length) := by
  have h1 : aggregate_date 8 1 8 ⟨[⟨"n1", 8, 10, 5, 2⟩], []⟩ =
      Except.ok (⟨8, 10, 5, 2, 1, 0, "LOW", false, 1⟩,
        ⟨[⟨"n1", 8, 10, 5, 2⟩], [⟨8, 10, 5, 2, 1, 0, "LOW", false, 1⟩]⟩) := by
    norm_num [aggregate_date, compute_risk_score, compute_risk_level, upsertSignal,
      List.dedup_cons_of_not_mem, List.dedup_nil]
  have h2 : aggregate_date 8 2 8 ⟨[⟨"n1", 8, 10, 5, 2⟩],
        [⟨8, 10, 5, 2, 1, 0, "LOW", false, 1⟩]⟩ =
      Except.ok (⟨8, 10, 5, 2, 1, 0, "LOW", false, 2⟩,
        ⟨[⟨"n1", 8, 10, 5, 2⟩], [⟨8, 10, 5, 2, 1, 0, "LOW", false, 2⟩]⟩) := by
    norm_num [aggregate_date, compute_risk_score, compute_risk_level, upsertSignal,
      List.dedup_cons_of_not_mem, List.dedup_nil]
  exact ⟨h1, h2, aggregate_date_idempotent 8 1 2 8 _ _ _ _ _ h1 h2⟩

/-- Claim C10: aggregating a non-future date with no stored reports
succeeds and returns all-zero totals, zero participating nodes, risk
score 0.0 and risk level LOW (upserting that row). -/
theorem aggregate_date_no_reports (today now target : Int) (db : AggDB)
    (hd : target ≤ today)
    (hr : db.reports.filter (fun r => r.date == target) = []) :
    aggregate_date today now target db = Except.ok
      (⟨target, 0, 0, 0, 0, 0, "LOW", false, now⟩,
       ⟨db.reports,
        upsertSignal db.signals ⟨target, 0, 0, 0, 0, 0, "LOW", false, now⟩⟩) := by
  unfold aggregate_date
  rw [if_neg (by omega), hr]
  norm_num [compute_risk_score, compute_risk_level]

/-- Witness for `aggregate_date_no_reports`: an empty store. -/
theorem aggregate_date_no_reports_witness :
    aggregate_date 8 1 8 ⟨[], []⟩ = Except.ok
      (⟨8, 0, 0, 0, 0, 0, "LOW", false, 1⟩,
       ⟨[], [⟨8, 0, 0, 0, 0, 0, "LOW", false, 1⟩]⟩) := by
  exact aggregate_date_no_reports 8 1 8 ⟨[], []⟩ (by norm_num) rfl

/-! ## SHA-256 (`hashlib.sha256`, FIPS 180-4), over byte lists -/

/-- Right rotation of a 32-bit word. -/
def rotr32 (n x : Nat) : Nat := ((x >>> n) ||| (x <<< (32 - n))) &&& 0xffffffff

/-- FIPS 180-4 Σ₀. -/
def bigSigma0 (x : Nat) : Nat := rotr32 2 x ^^^ rotr32 13 x ^^^ rotr32 22 x

/-- FIPS 180-4 Σ₁. -/
def bigSigma1 (x : Nat) : Nat := rotr32 6 x ^^^ rotr32 11 x ^^^ rotr32 25 x

/-- FIPS 180-4 σ₀. -/
def smallSigma0 (x : Nat) : Nat := rotr32 7 x ^^^ rotr32 18 x ^^^ (x >>> 3)

/-- FIPS 180-4 σ₁. -/
def smallSigma1 (x : Nat) : Nat := rotr32 17 x ^^^ rotr32 19 x ^^^ (x >>> 10)

/-- FIPS 180-4 Ch. -/
def ch (x y z : Nat) : Nat := (x &&& y) ^^^ ((x ^^^ 0xffffffff) &&& z)

/-- FIPS 180-4 Maj. -/
def maj (x y z : Nat) : Nat := (x &&& y) ^^^ (x &&& z) ^^^ (y &&& z)

/-- The 64 SHA-256 round constants (FIPS 180-4, in decimal). -/
def K256 : List Nat :=
  [1116352408, 1899447441, 3049323471, 3921009573, 961987163,
   1508970993, 2453635748, 2870763221, 3624381080, 310598401,
   607225278, 1426881987, 1925078388, 2162078206, 2614888103,
   3248222580, 3835390401, 4022224774, 264347078, 604807628,
   770255983, 1249150122, 1555081692, 1996064986, 2554220882,
   2821834349, 2952996808, 3210313671, 3336571891, 3584528711,
   113926993, 338241895, 666307205, 773529912, 1294757372,
   1396182291, 1695183700, 1986661051, 2177026350, 2456956037,
   2730485921, 2820302411, 3259730800, 3345764771, 3516065817,
   3600352804, 4094571909, 275423344, 430227734, 506948616,
   659060556, 883997877, 958139571, 1322822218, 1537002063,
   1747873779, 1955562222, 2024104815, 2227730452, 2361852424,
   2428436474, 2756734187, 3204031479, 3329325298]

/-- The SHA-256 initial hash value (FIPS 180-4, in decimal). -/
def H256 : List Nat :=
  [1779033703, 3144134277, 1013904242, 2773480762,
   1359893119, 2600822924, 528734635, 1541459225]

/-- The length field of the padding: 8 big-endian bytes. -/
def bigEndianBytes8 (n : Nat) : List Nat :=
  [(n >>> 56) &&& 255, (n >>> 48) &&& 255, (n >>> 40) &&& 255,
   (n >>> 32) &&& 255, (n >>> 24) &&& 255, (n >>> 16) &&& 255,
   (n >>> 8) &&& 255, n &&& 255]

/-- SHA-256 padding: a 0x80 byte, zeros to 56 mod 64, and the bit
length as 8 big-endian bytes. -/
def padMessage (msg : List Nat) : List Nat :=
  let z := (120 - ((msg.length + 1) % 64)) % 64
  msg ++ 128 :: (List.replicate z 0 ++ bigEndianBytes8 (msg.length * 8))

/-- Big-endian 32-bit words from a byte list (length a multiple of 4
after padding). -/
def toWords : List Nat → List Nat
  | b0 :: b1 :: b2 :: b3 :: rest =>
    ((b0 <<< 24) ||| (b1 <<< 16) ||| (b2 <<< 8) ||| b3) :: toWords rest
  | _ => []

/-- Extend a 16-word block to the 64-word message schedule (`k` more
words to append). -/
def extendSchedule (ws : List Nat) : Nat → List Nat
  | 0 => ws
  | k + 1 =>
    let n := ws.length
    let w := (smallSigma1 (ws.getD (n - 2) 0) + ws.getD (n - 7) 0 +
      smallSigma0 (ws.getD (n - 15) 0) + ws.getD (n - 16) 0) % 0x100000000
    extendSchedule (ws ++ [w]) k

/-- One SHA-256 round on the working variables `[a,b,c,d,e,f,g,h]`. -/
def roundStep (st : List Nat) (kw : Nat × Nat) : List Nat :=
  match st with
  | [a, b, c, d, e, f, g, h] =>
    let t1 := (h + bigSigma1 e + ch e f g + kw.1 + kw.2) % 0x100000000
    let t2 := (bigSigma0 a + maj a b c) % 0x100000000
    [(t1 + t2) % 0x100000000, a, b, c, (d + t1) % 0x100000000, e, f, g]
  | _ => st

/-- Compress one 16-word block into the hash state. -/
def compress (h : List Nat) (block : List Nat) : List Nat :=
  let w := extendSchedule block 48
  let final := (K256.zip w).foldl roundStep h
  (h.zip final).map (fun p => (p.1 + p.2) % 0x100000000)

/-- Fold the compression over all 16-word blocks (the padded word list
is always a multiple of 16 long). -/
def processBlocks (h : List Nat) : List Nat → List Nat
  | w0 :: w1 :: w2 :: w3 :: w4 :: w5 :: w6 :: w7 ::
    w8 :: w9 :: w10 :: w11 :: w12 :: w13 :: w14 :: w15 :: rest =>
    processBlocks (compress h
      [w0, w1, w2, w3, w4, w5, w6, w7, w8, w9, w10, w11, w12, w13, w14, w15]) rest
  | _ => h

/-- SHA-256 digest (32 bytes) of a byte list. -/
def sha256 (msg : List Nat) : List Nat :=
  let hh := processBlocks H256 (toWords (padMessage msg))
  (hh.map (fun w =>
    [(w >>> 24) &&& 255, (w >>> 16) &&& 255, (w >>> 8) &&& 255, w &&& 255])).flatten

/-- Lowercase hex digit. -/
def hexChar (n : Nat) : Char :=
  if n < 10 then Char.ofNat (48 + n) else Char.ofNat (87 + n)

/-- Lowercase hex rendering of a byte list (`hexdigest()`). -/
def bytesToHex (bs : List Nat) : String :=
  String.mk ((bs.map (fun b => [hexChar (b / 16), hexChar (b % 16)])).flatten)

/-- UTF-8 bytes of a string; the strings hashed by `create_hash` are
plain ASCII, where UTF-8 is the identity on code points. -/
def strToBytes (s : String) : List Nat := s.data.map Char.toNat

/-- `hashlib.sha256(s.encode('utf-8')).hexdigest()`. -/
def sha256Hex (s : String) : String := bytesToHex (sha256 (strToBytes s))

/-- `json.dumps(report_data, sort_keys=True)` for the exact dict shape
hashed by `AuditTrail.create_hash`: top-level keys sorted as `date` <
`node_id` < `report_id` < `symptoms`, symptom keys as `cough` < `fever`
< `gi`, with the default `", "` / `": "` separators.  The id / node /
date strings produced by the system contain no characters that
`json.dumps` escapes. -/
def serializeReportData (report_id node_id date : String)
    (fever cough gi : Int) : String :=
  "\x7b\"date\": \"" ++ date ++ "\", \"node_id\": \"" ++ node_id ++
  "\", \"report_id\": \"" ++ report_id ++ "\", \"symptoms\": \x7b\"cough\": " ++
  toString cough ++ ", \"fever\": " ++ toString fever ++ ", \"gi\": " ++
  toString gi ++ "\x7d\x7d"

/-- `AuditTrail.create_hash(report_data)`: SHA-256 over the sorted-key
JSON serialization, as a 64-character lowercase hex string. -/
def create_hash (report_id node_id date : String)
    (fever cough gi : Int) : String :=
  sha256Hex (serializeReportData report_id node_id date fever cough gi)

/-- One `daily_reports` row as read by `AuditTrail.verify_report`
(`date` kept in its `isoformat()` rendering). -/
structure ReportRec where
  report_id : String
  node_id : String
  date_iso : String
  fever_count : Int
  cough_count : Int
  gi_count : Int
deriving DecidableEq, Repr

/-- The dict returned by `AuditTrail.verify_report` (the `match` key is
`hash_match` here; `timestamp` omitted as display-only). -/
structure VerifyResult where
  valid : Bool
  report_id : String
  stored_hash : Option String
  computed_hash : Option String
  hash_match : Bool
  error : Option String
deriving DecidableEq, Repr

/-- `AuditTrail.verify_report(report_id)`: fetch the audit entry and the
live report (first match by `report_id`), recompute the fingerprint from
the report's current fields, and compare. -/
def verify_report (audits : List AuditEntry) (reports : List ReportRec)
    (report_id : String) : VerifyResult :=
  match audits.find? (fun a => a.report_id == report_id) with
  | none =>
    ⟨false, report_id, none, none, false,
      some "No audit entry found for this report"⟩
  | some audit_entry =>
    match reports.find? (fun r => r.report_id == report_id) with
    | none =>
      ⟨false, report_id, some audit_entry.current_hash, none, false,
        some "Report not found in database (possible deletion)"⟩
    | some report =>
      let computed_hash := create_hash report.report_id report.node_id
        report.date_iso report.fever_count report.cough_count report.gi_count
      let is_valid := audit_entry.current_hash == computed_hash
      ⟨is_valid, report_id, some audit_entry.current_hash, some computed_hash,
        is_valid,
        if is_valid then none
        else some "Hash mismatch - report data has been tampered with"⟩

/-- Claim C6: for a report with an audit entry, `verify_report` returns
valid = true exactly when the stored audit hash equals the fingerprint
recomputed from the report's current fields; when the report row is
missing it returns valid = false with the distinct report-deleted error
rather than the hash-mismatch error. -/
theorem verify_report_hash_check (audits : List AuditEntry)
    (reports : List ReportRec) (rid : String) (a : AuditEntry)
    (ha : audits.find? (fun x => x.report_id == rid) = some a) :
    (∀ r : ReportRec, reports.find? (fun x => x.report_id == rid) = some r →
      verify_report audits reports rid =
        ⟨a.current_hash == create_hash r.report_id r.node_id r.date_iso
            r.fever_count r.cough_count r.gi_count, rid,
          some a.current_hash,
          some (create_hash r.report_id r.node_id r.date_iso r.fever_count
            r.cough_count r.gi_count),
          a.current_hash == create_hash r.report_id r.node_id r.date_iso
            r.fever_count r.cough_count r.gi_count,
          if a.current_hash == create_hash r.report_id r.node_id r.date_iso
              r.fever_count r.cough_count r.gi_count then none
          else some "Hash mismatch - report data has been tampered with"⟩ ∧
      ((verify_report audits reports rid).valid = true ↔
        a.current_hash = create_hash r.report_id r.node_id r.date_iso
          r.fever_count r.cough_count r.gi_count)) ∧
    (reports.find? (fun x => x.report_id == rid) = none →
      verify_report audits reports rid =
        ⟨false, rid, some a.current_hash, none, false,
          some "Report not found in database (possible deletion)"⟩ ∧
      ("Report not found in database (possible deletion)" : String) ≠
        "Hash mismatch - report data has been tampered with") := by
  constructor
  · intro r hr
    have he : verify_report audits reports rid =
        ⟨a.current_hash == create_hash r.report_id r.node_id r.date_iso
            r.fever_count r.cough_count r.gi_count, rid,
          some a.current_hash,
          some (create_hash r.report_id r.node_id r.date_iso r.fever_count
            r.cough_count r.gi_count),
          a.current_hash == create_hash r.report_id r.node_id r.date_iso
            r.fever_count r.cough_count r.gi_count,
          if a.current_hash == create_hash r.report_id r.node_id r.date_iso
              r.fever_count r.cough_count r.gi_count then none
          else some "Hash mismatch - report data has been tampered with"⟩ := by
      unfold verify_report
      rw [ha, hr]
    refine ⟨he, ?_⟩
    rw [he]
    exact beq_iff_eq
  · intro hr
    refine ⟨?_, by decide⟩
    unfold verify_report
    rw [ha, hr]

/-- Witness for `verify_report_hash_check`: an untouched report
verifies; after altering its fever count in storage (5 → 6, bypassing
the ledger) verification fails with differing stored and recomputed
hashes; deleting the report row yields the distinct deletion error. -/
theorem verify_report_hash_check_witness :
    (verify_report [⟨"r1", create_hash "r1" "node_1" "2024-01-01" 5 8 3, none⟩]
        [⟨"r1", "node_1", "2024-01-01", 5, 8, 3⟩] "r1").valid = true ∧
    (verify_report [⟨"r1", create_hash "r1" "node_1" "2024-01-01" 5 8 3, none⟩]
        [⟨"r1", "node_1", "2024-01-01", 6, 8, 3⟩] "r1").valid = false ∧
    create_hash "r1" "node_1" "2024-01-01" 5 8 3 ≠
      create_hash "r1" "node_1" "2024-01-01" 6 8 3 ∧
    verify_report [⟨"r1", create_hash "r1" "node_1" "2024-01-01" 5 8 3, none⟩]
        [] "r1" =
      ⟨false, "r1", some (create_hash "r1" "node_1" "2024-01-01" 5 8 3), none,
        false, some "Report not found in database (possible deletion)"⟩ := by
  have hne : create_hash "r1" "node_1" "2024-01-01" 5 8 3 ≠
      create_hash "r1" "node_1" "2024-01-01" 6 8 3 := by decide
  have hmain := verify_report_hash_check
    [⟨"r1", create_hash "r1" "node_1" "2024-01-01" 5 8 3, none⟩]
    [⟨"r1", "node_1", "2024-01-01", 5, 8, 3⟩] "r1"
    ⟨"r1", create_hash "r1" "node_1" "2024-01-01" 5 8 3, none⟩ rfl
  have htamper := verify_report_hash_check
    [⟨"r1", create_hash "r1" "node_1" "2024-01-01" 5 8 3, none⟩]
    [⟨"r1", "node_1", "2024-01-01", 6, 8, 3⟩] "r1"
    ⟨"r1", create_hash "r1" "node_1" "2024-01-01" 5 8 3, none⟩ rfl
  have hdel := verify_report_hash_check
    [⟨"r1", create_hash "r1" "node_1" "2024-01-01" 5 8 3, none⟩]
    [] "r1" ⟨"r1", create_hash "r1" "node_1" "2024-01-01" 5 8 3, none⟩ rfl
  refine ⟨?_, ?_, hne, (hdel.2 rfl).1⟩
  · exact ((hmain.1 ⟨"r1", "node_1", "2024-01-01", 5, 8, 3⟩ rfl).2).mpr rfl
  · rw [((htamper.1 ⟨"r1", "node_1", "2024-01-01", 6, 8, 3⟩ rfl)).1]
    exact beq_eq_false_iff_ne.mpr hne

end BioHive
